import Mathlib

/-!
Verification of `src/unlicense/frida_exec.py` (the core of the `unlicense`
repository): a shallow embedding in Lean 4 of the Frida-backed process
controller, the session setup sequence and the asynchronous message
dispatcher, together with proofs of the specified properties.
-/

set_option autoImplicit false

namespace Unlicense

/-! ## Python primitives

The source parses textual hexadecimal addresses with the Python builtin
`int(s, 16)`.  We model the forms that occur in this program: an optional
`0x` / `0X` prefix followed by a non-empty run of hexadecimal digits.
Any other input makes the builtin raise `ValueError`, modelled as `none`. -/

/-- Value of one hexadecimal digit character, `none` for a non-digit. -/
def hexDigitVal (c : Char) : Option Nat :=
  if '0' ≤ c ∧ c ≤ '9' then some (c.toNat - '0'.toNat)
  else if 'a' ≤ c ∧ c ≤ 'f' then some (c.toNat - 'a'.toNat + 10)
  else if 'A' ≤ c ∧ c ≤ 'F' then some (c.toNat - 'A'.toNat + 10)
  else none

/-- Accumulating base-16 evaluation of a digit run. -/
def parseHexDigitsAux (acc : Nat) : List Char → Option Nat
  | [] => some acc
  | c :: cs =>
    match hexDigitVal c with
    | none => none
    | some v => parseHexDigitsAux (acc * 16 + v) cs

/-- A non-empty run of hexadecimal digits; `none` on the empty run or on a
non-digit character. -/
def parseHexDigits : List Char → Option Nat
  | [] => none
  | cs => parseHexDigitsAux 0 cs

/-- Model of the Python builtin `int(s, 16)` as used by the source:
an optional case-insensitive 0x prefix followed by hexadecimal digits,
`none` standing for a raised `ValueError`. -/
def pyIntHex (s : String) : Option Nat :=
  match s.data with
  | '0' :: 'x' :: rest => parseHexDigits rest
  | '0' :: 'X' :: rest => parseHexDigits rest
  | cs => parseHexDigits cs

/-! ## Event dispatcher (`_frida_callback`)

Messages delivered by the transport are Python dicts; the fields the
dispatcher touches are `type`, `stack` and `payload` (the latter with
`event`, `BASE`, `OEP`).  Absent fields are `none`; subscripting an absent
field raises `KeyError`, while `payload.get('event', '')` defaults to the
empty string. -/

/-- Payload of a send-message, as accessed by the dispatcher. -/
structure Payload where
  event : Option String
  BASE : Option String
  OEP : Option String
deriving DecidableEq

/-- An asynchronous agent message, as accessed by the dispatcher. -/
structure Message where
  type : Option String
  stack : Option String
  payload : Option Payload
deriving DecidableEq

/-- Exceptions the dispatcher body can raise.  The source raises
`NotImplementedError` for an unknown message shape; the design-level name
for that condition is `ProtocolViolation`. -/
inductive PyErr where
  | keyError (key : String)
  | valueError
  | notImplementedError (msg : String)
deriving DecidableEq

/-- One diagnostic record emitted through `LOG.error`. -/
inductive LogEntry where
  | message (m : Message)
  | stackTrace (s : String)
deriving DecidableEq

/-- Observable outcome of one dispatcher invocation: OEP-callback
invocations in order, log records in order, and the escaping exception if
any. -/
structure DispatchResult where
  calls : List (Nat × Nat)
  logs : List LogEntry
  err : Option PyErr
deriving DecidableEq

/-- Shallow embedding of `_frida_callback` (frida_exec.py, lines 110-128).
The caller-supplied `notify_oep_reached` callback is reified: the result's
`calls` field lists its invocations in order. -/
def frida_callback (message : Message) : DispatchResult :=
  match message.type with
  | none => ⟨[], [], some (.keyError "type")⟩
  | some msgType =>
    if msgType = "error" then
      match message.stack with
      | none => ⟨[], [.message message], some (.keyError "stack")⟩
      | some st => ⟨[], [.message message, .stackTrace st], none⟩
    else if msgType = "send" then
      match message.payload with
      | none => ⟨[], [], some (.keyError "payload")⟩
      | some p =>
        if p.event.getD "" = "oep_reached" then
          match p.BASE with
          | none => ⟨[], [], some (.keyError "BASE")⟩
          | some bs =>
            match pyIntHex bs with
            | none => ⟨[], [], some .valueError⟩
            | some b =>
              match p.OEP with
              | none => ⟨[], [], some (.keyError "OEP")⟩
              | some os =>
                match pyIntHex os with
                | none => ⟨[], [], some .valueError⟩
                | some o => ⟨[(b, o)], [], none⟩
        else ⟨[], [], some (.notImplementedError "Unknown message received")⟩
    else ⟨[], [], some (.notImplementedError "Unknown message received")⟩

/-! ## Process controller (`FridaProcessController`)

The controller state the claims are about is the exported-functions cache.
Remote calls are modelled by passing in what the remote surface would
return; a ghost counter records how many remote export enumerations have
been issued. -/

/-- One entry of the remote `enumerate_exported_functions()` result: a
textual hexadecimal address plus the rest of the record. -/
structure ExportEntry where
  address : String
  name : String
deriving DecidableEq

/-- Python-dict model: an association list in insertion order, where
inserting an existing key overwrites the value in place. -/
abbrev ExportsDict := List (Nat × ExportEntry)

/-- Insertion with Python-dict semantics: an existing key keeps its
position and gets the new value, a new key is appended. -/
def dictInsert (k : Nat) (v : ExportEntry) : ExportsDict → ExportsDict
  | [] => [(k, v)]
  | (k', v') :: rest =>
    if k' = k then (k, v) :: rest else (k', v') :: dictInsert k v rest

/-- Lookup in the dict model. -/
def dictLookup (k : Nat) : ExportsDict → Option ExportEntry
  | [] => none
  | (k', v) :: rest => if k' = k then some v else dictLookup k rest

/-- Left fold of the dict comprehension over the remaining entries. -/
def buildExportsDictAux (acc : ExportsDict) :
    List ExportEntry → Except PyErr ExportsDict
  | [] => .ok acc
  | e :: rest =>
    match pyIntHex e.address with
    | none => .error .valueError
    | some k => buildExportsDictAux (dictInsert k e acc) rest

/-- Shallow embedding of the dict comprehension on line 56 of
frida_exec.py: each entry keyed by its address parsed as hexadecimal; a
parse failure is the raised `ValueError`. -/
def buildExportsDict (entries : List ExportEntry) : Except PyErr ExportsDict :=
  buildExportsDictAux [] entries

/-- Controller state relevant to the claims: the exported-functions cache
(`None` before first population) and a ghost count of remote export
enumerations issued so far. -/
structure ControllerState where
  exported_functions_cache : Option ExportsDict
  remoteEnumCount : Nat
deriving DecidableEq

/-- Shallow embedding of
`FridaProcessController.enumerate_exported_functions` (lines 50-59):
if the cache is absent or `update_cache` is set, issue the remote
enumeration (`remote` is its result), build the dict, store it as the
cache and return it; otherwise return the cache unchanged.  A raised
exception is returned on the left with the state as the source leaves it. -/
def enumerate_exported_functions (update_cache : Bool)
    (remote : List ExportEntry) (s : ControllerState) :
    Except PyErr ExportsDict × ControllerState :=
  match s.exported_functions_cache, update_cache with
  | some cache, false => (.ok cache, s)
  | _, _ =>
    match buildExportsDict remote with
    | .error e =>
      (.error e, ⟨s.exported_functions_cache, s.remoteEnumCount + 1⟩)
    | .ok d => (.ok d, ⟨some d, s.remoteEnumCount + 1⟩)

/-- A sequence of `enumerate_exported_functions false` calls, one per
element of `remotes` (each element being what the remote surface would
return if queried), threading the controller state. -/
def enumFalseSeq (remotes : List (List ExportEntry)) (s : ControllerState) :
    List (Except PyErr ExportsDict) × ControllerState :=
  match remotes with
  | [] => ([], s)
  | r :: rs =>
    let step := enumerate_exported_functions false r s
    let rest := enumFalseSeq rs step.2
    (step.1 :: rest.1, rest.2)

/-- Controller-level error taxonomy.  The source's `raise Exception from e`
on an `RPCException` (lines 72-74, with a TODO for a dedicated exception)
is the condition the design calls `RemoteOperationError`. -/
inductive ControllerError where
  | remoteOperationError
deriving DecidableEq

/-- Shallow embedding of `FridaProcessController.read_process_memory`
(lines 69-74): `remote` is the outcome of the remote call, a transport
fault carried as `Except.error`; the controller rewraps a fault and
touches no other state. -/
def read_process_memory (remote : Except String (List Nat))
    (s : ControllerState) :
    Except ControllerError (List Nat) × ControllerState :=
  match remote with
  | .ok b => (.ok b, s)
  | .error _ => (.error .remoteOperationError, s)

/-! ## Session manager (`spawn_and_instrument`, `terminate_process`)

These are sequences of engine/remote effects; we embed them as the traces
of effects they perform, in program order. -/

/-- Effects performed by `spawn_and_instrument`, in the order the source
performs them. -/
inductive SetupEvent where
  | spawnSuspended
  | attachSession
  | createScript
  | registerMessageSink
  | loadScript
  | queryIdentity (mainModuleName : String)
  | setupOepTracing (mainModuleName : String)
  | resumeProcess
  | returnController
deriving DecidableEq

/-- Shallow embedding of `spawn_and_instrument` (lines 88-107) as its
effect trace.  `exeName` is the executable's file name (`exe_path.name`),
from which `main_module_name` is derived; constructing the
`FridaProcessController` queries architecture, pointer size, page size and
the main module's ranges (the identity snapshot). -/
def spawnAndInstrumentTrace (exeName : String) : List SetupEvent :=
  [.spawnSuspended, .attachSession, .createScript, .registerMessageSink,
   .loadScript, .queryIdentity exeName, .setupOepTracing exeName,
   .resumeProcess, .returnController]

/-- Effects performed by `terminate_process`. -/
inductive TerminateEvent where
  | killProcess (pid : Nat)
  | detachSession
deriving DecidableEq

/-- Shallow embedding of `FridaProcessController.terminate_process`
(lines 83-85) as its effect trace: `frida.kill(self.pid)` then
`self._frida_session.detach()`. -/
def terminateProcessTrace (pid : Nat) : List TerminateEvent :=
  [.killProcess pid, .detachSession]

/-- Strict precedence of two entries in a trace. -/
def occursBefore {α : Type} (a b : α) (t : List α) : Prop :=
  ∃ i j, i < j ∧ t.get? i = some a ∧ t.get? j = some b

/-! ## Helper lemmas about the dict model -/

lemma mem_dictInsert {k : Nat} {v : ExportEntry} {l : ExportsDict}
    {ke : Nat × ExportEntry} (h : ke ∈ dictInsert k v l) :
    ke = (k, v) ∨ ke ∈ l := by
  induction l with
  | nil =>
    simp [dictInsert] at h
    exact Or.inl h
  | cons hd tl ih =>
    obtain ⟨k', v'⟩ := hd
    by_cases hk : k' = k
    · simp [dictInsert, hk] at h
      rcases h with h | h
      · exact Or.inl h
      · exact Or.inr (List.mem_cons_of_mem _ h)
    · simp [dictInsert, hk] at h
      rcases h with h | h
      · exact Or.inr (by simp [h])
      · rcases ih h with h' | h'
        · exact Or.inl h'
        · exact Or.inr (List.mem_cons_of_mem _ h')

lemma dictLookup_dictInsert_self (k : Nat) (v : ExportEntry)
    (l : ExportsDict) : dictLookup k (dictInsert k v l) = some v := by
  induction l with
  | nil => simp [dictInsert, dictLookup]
  | cons hd tl ih =>
    obtain ⟨k', v'⟩ := hd
    by_cases hk : k' = k
    · simp [dictInsert, dictLookup, hk]
    · simp [dictInsert, dictLookup, hk, ih]

lemma dictLookup_dictInsert_isSome {k : Nat} {l : ExportsDict}
    (k' : Nat) (v : ExportEntry) (h : (dictLookup k l).isSome = true) :
    (dictLookup k (dictInsert k' v l)).isSome = true := by
  by_cases hk : k' = k
  · subst hk
    simp [dictLookup_dictInsert_self]
  · induction l with
    | nil => simp [dictLookup] at h
    | cons hd tl ih =>
      obtain ⟨k₀, v₀⟩ := hd
      by_cases h₀ : k₀ = k'
      · subst h₀
        simp [dictLookup, hk] at h
        simp [dictInsert, dictLookup, hk, h]
      · by_cases h₁ : k₀ = k
        · subst h₁
          simp [dictInsert, dictLookup, h₀, Ne.symm hk]
        · simp [dictLookup, h₁] at h
          simp [dictInsert, dictLookup, h₀, h₁, ih h]

lemma buildExportsDictAux_values (rest : List ExportEntry) :
    ∀ (acc d : ExportsDict), buildExportsDictAux acc rest = .ok d →
    (∀ ke ∈ acc, pyIntHex ke.2.address = some ke.1) →
    ∀ ke ∈ d, pyIntHex ke.2.address = some ke.1 := by
  induction rest with
  | nil =>
    intro acc d h hacc
    simp [buildExportsDictAux] at h
    subst h
    exact hacc
  | cons e rest ih =>
    intro acc d h hacc
    unfold buildExportsDictAux at h
    cases he : pyIntHex e.address with
    | none => rw [he] at h; exact absurd h (by simp)
    | some k =>
      rw [he] at h
      refine ih (dictInsert k e acc) d h ?_
      intro ke hke
      rcases mem_dictInsert hke with h' | h'
      · subst h'
        exact he
      · exact hacc ke h'

lemma buildExportsDictAux_keys (rest : List ExportEntry) :
    ∀ (acc d : ExportsDict), buildExportsDictAux acc rest = .ok d →
    (∀ k, (dictLookup k acc).isSome = true →
      (dictLookup k d).isSome = true) ∧
    ∀ e ∈ rest, ∃ k, pyIntHex e.address = some k ∧
      (dictLookup k d).isSome = true := by
  induction rest with
  | nil =>
    intro acc d h
    simp [buildExportsDictAux] at h
    subst h
    exact ⟨fun _ hk => hk, by simp⟩
  | cons e rest ih =>
    intro acc d h
    unfold buildExportsDictAux at h
    cases he : pyIntHex e.address with
    | none => rw [he] at h; exact absurd h (by simp)
    | some k =>
      rw [he] at h
      obtain ⟨hpres, hrest⟩ := ih (dictInsert k e acc) d h
      refine ⟨?_, ?_⟩
      · intro k' hk'
        exact hpres k' (dictLookup_dictInsert_isSome k e hk')
      · intro e' he'
        rcases List.mem_cons.mp he' with h' | h'
        · subst h'
          refine ⟨k, he, hpres k ?_⟩
          simp [dictLookup_dictInsert_self]
        · exact hrest e' h'

/-! ## Claim theorems -/

/-- C1 counterexample: on the message of type send with payload event
oep_reached, BASE 0x400000 and OEP 0x401234, the OEP callback does NOT
receive the pair (4194304, 4199476) claimed by the spec: 0x401234 parses
to 4198964, not 4199476. -/
theorem oep_event_decoding_counterexample :
    (frida_callback ⟨some "send", none,
        some ⟨some "oep_reached", some "0x400000", some "0x401234"⟩⟩).calls ≠
      [(4194304, 4199476)] := by decide

/-- C1 (amended): on the message of type send with payload event
oep_reached, BASE 0x400000 and OEP 0x401234, the OEP callback is invoked
exactly once, with the pair (4194304, 4198964), nothing is logged, and the
dispatcher returns without raising. -/
theorem oep_event_decoding_actual_pair :
    frida_callback ⟨some "send", none,
        some ⟨some "oep_reached", some "0x400000", some "0x401234"⟩⟩ =
      ⟨[(4194304, 4198964)], [], none⟩ := by decide

/-- C2: once the exported-functions cache is populated, any sequence of
`enumerate_exported_functions` calls with `update_cache = false` returns
the cached mapping each time and leaves the controller state, including
the count of remote enumerations issued, unchanged. -/
theorem export_cache_idempotent (s : ControllerState) (d : ExportsDict)
    (remotes : List (List ExportEntry))
    (h : s.exported_functions_cache = some d) :
    enumFalseSeq remotes s = (remotes.map fun _ => Except.ok d, s) := by
  induction remotes with
  | nil => simp [enumFalseSeq]
  | cons r rs ih =>
    have hstep : enumerate_exported_functions false r s = (Except.ok d, s) := by
      simp [enumerate_exported_functions, h]
    simp [enumFalseSeq, hstep, ih]

/-- C2 witness: a concrete two-call sequence on a populated cache. -/
theorem export_cache_idempotent_witness :
    enumFalseSeq [[⟨"0x2000", "g"⟩], []]
        ⟨some [(4096, ⟨"0x1000", "f"⟩)], 1⟩ =
      ([Except.ok [(4096, ⟨"0x1000", "f"⟩)],
        Except.ok [(4096, ⟨"0x1000", "f"⟩)]],
       ⟨some [(4096, ⟨"0x1000", "f"⟩)], 1⟩) :=
  export_cache_idempotent ⟨some [(4096, ⟨"0x1000", "f"⟩)], 1⟩
    [(4096, ⟨"0x1000", "f"⟩)] [[⟨"0x2000", "g"⟩], []] rfl

/-- C3: a call with `update_cache = true` issues exactly one new remote
enumeration (the ghost counter increases by one), replaces the cache with
the newly built mapping, and returns that mapping, regardless of the prior
cache state. -/
theorem export_forced_refresh (s : ControllerState)
    (remote : List ExportEntry) (d : ExportsDict)
    (h : buildExportsDict remote = Except.ok d) :
    enumerate_exported_functions true remote s =
      (Except.ok d, ⟨some d, s.remoteEnumCount + 1⟩) := by
  obtain ⟨c, n⟩ := s
  cases c <;> simp [enumerate_exported_functions, h]

/-- C3 witness: a forced refresh on a controller that already has a
cache. -/
theorem export_forced_refresh_witness :
    enumerate_exported_functions true [⟨"0x1000", "f"⟩] ⟨some [], 5⟩ =
      (Except.ok [(4096, ⟨"0x1000", "f"⟩)],
       ⟨some [(4096, ⟨"0x1000", "f"⟩)], 6⟩) :=
  export_forced_refresh ⟨some [], 5⟩ [⟨"0x1000", "f"⟩]
    [(4096, ⟨"0x1000", "f"⟩)] rfl

/-- C4: when the dict comprehension succeeds, every stored entry sits
under the key obtained by parsing its textual hexadecimal address, every
enumerated entry's parsed address is a valid key of the mapping, and the
textual address 0x1000 parses to the key 4096. -/
theorem export_address_key_round_trip (entries : List ExportEntry)
    (d : ExportsDict) (h : buildExportsDict entries = Except.ok d) :
    (∀ ke ∈ d, pyIntHex ke.2.address = some ke.1) ∧
    (∀ e ∈ entries, ∃ k, pyIntHex e.address = some k ∧
      (dictLookup k d).isSome = true) ∧
    pyIntHex "0x1000" = some 4096 :=
  ⟨buildExportsDictAux_values entries [] d h (by simp),
   (buildExportsDictAux_keys entries [] d h).2, by decide⟩

/-- C4 witness: the singleton enumeration whose address is 0x1000. -/
theorem export_address_key_round_trip_witness :
    (∀ ke ∈ ([(4096, ⟨"0x1000", "f"⟩)] : ExportsDict),
      pyIntHex ke.2.address = some ke.1) ∧
    (∀ e ∈ [(⟨"0x1000", "f"⟩ : ExportEntry)], ∃ k,
      pyIntHex e.address = some k ∧
      (dictLookup k [(4096, ⟨"0x1000", "f"⟩)]).isSome = true) ∧
    pyIntHex "0x1000" = some 4096 :=
  export_address_key_round_trip [⟨"0x1000", "f"⟩]
    [(4096, ⟨"0x1000", "f"⟩)] rfl

/-- C5 counterexample: a message of kind error with no stack field makes
an exception (the KeyError on the stack lookup) escape the dispatcher, so
the claim as stated over every error-kind message is false. -/
theorem error_message_claim_counterexample :
    (frida_callback ⟨some "error", none, none⟩).err ≠ none ∧
    (frida_callback ⟨some "error", none, none⟩).err =
      some (PyErr.keyError "stack") := by decide

/-- C5 (amended): for every message of kind error that carries a stack
field, the OEP callback is not invoked, the message and its stack trace
are only logged, and no exception escapes the dispatcher. -/
theorem error_message_with_stack_logged (m : Message) (st : String)
    (ht : m.type = some "error") (hs : m.stack = some st) :
    frida_callback m = ⟨[], [.message m, .stackTrace st], none⟩ := by
  rcases m with ⟨ty, stk, pl⟩
  obtain rfl : ty = some "error" := ht
  obtain rfl : stk = some st := hs
  rfl

/-- C5 witness: a concrete error message with a stack trace. -/
theorem error_message_with_stack_logged_witness :
    frida_callback ⟨some "error", some "trace", none⟩ =
      ⟨[], [.message ⟨some "error", some "trace", none⟩,
            .stackTrace "trace"], none⟩ :=
  error_message_with_stack_logged ⟨some "error", some "trace", none⟩
    "trace" rfl rfl

/-- C6 counterexample: the message of type send with no payload field is
neither of kind error nor a send carrying the event oep_reached, yet the
dispatcher raises the KeyError of the payload lookup, not the claimed
ProtocolViolation (the source's NotImplementedError). -/
theorem unknown_shape_claim_counterexample :
    (frida_callback ⟨some "send", none, none⟩).err =
      some (PyErr.keyError "payload") := by decide

/-- C6 (amended): for every message that has a type field and, when that
type is send, also has a payload field, and whose shape is neither of kind
error nor a send whose payload event is oep_reached, the dispatcher raises
the protocol violation (the source's NotImplementedError) and the OEP
callback is not invoked. -/
theorem unknown_shape_raises_protocol_violation (m : Message) (t : String)
    (ht : m.type = some t) (hterr : t ≠ "error")
    (hsend : t = "send" → ∃ p, m.payload = some p ∧
      p.event.getD "" ≠ "oep_reached") :
    frida_callback m =
      ⟨[], [], some (.notImplementedError "Unknown message received")⟩ := by
  rcases m with ⟨ty, stk, pl⟩
  obtain rfl : ty = some t := ht
  by_cases hs : t = "send"
  · subst hs
    obtain ⟨p, hp, hev⟩ := hsend rfl
    obtain rfl : pl = some p := hp
    simp [frida_callback, hev]
  · simp [frida_callback, hterr, hs]

/-- C6 witness: the concrete send message whose payload event is
unknown. -/
theorem unknown_shape_raises_protocol_violation_witness :
    frida_callback ⟨some "send", none, some ⟨some "unknown", none, none⟩⟩ =
      ⟨[], [], some (PyErr.notImplementedError "Unknown message received")⟩ :=
  unknown_shape_raises_protocol_violation
    ⟨some "send", none, some ⟨some "unknown", none, none⟩⟩ "send" rfl
    (by decide) (fun _ => ⟨⟨some "unknown", none, none⟩, rfl, by decide⟩)

/-- C7: when the remote call of `read_process_memory` reports a failure,
the operation fails with the controller-level RemoteOperationError and the
controller state, in particular the exported-functions cache, is exactly
what it was before the call. -/
theorem failed_read_raises_remote_operation_error (msg : String)
    (s : ControllerState) :
    read_process_memory (Except.error msg) s =
      (Except.error ControllerError.remoteOperationError, s) ∧
    (read_process_memory (Except.error msg) s).2.exported_functions_cache =
      s.exported_functions_cache :=
  ⟨rfl, rfl⟩

/-- C8: in the effect trace of `spawn_and_instrument`, the message sink is
registered and the agent script loaded before the controller identity is
queried, OEP tracing is armed for the main module (the executable's file
name) before the process is resumed, and the process is resumed before the
controller is returned. -/
theorem spawn_and_instrument_order (exeName : String) :
    occursBefore SetupEvent.registerMessageSink
      (SetupEvent.queryIdentity exeName) (spawnAndInstrumentTrace exeName) ∧
    occursBefore SetupEvent.loadScript (SetupEvent.queryIdentity exeName)
      (spawnAndInstrumentTrace exeName) ∧
    occursBefore (SetupEvent.setupOepTracing exeName)
      SetupEvent.resumeProcess (spawnAndInstrumentTrace exeName) ∧
    occursBefore SetupEvent.resumeProcess SetupEvent.returnController
      (spawnAndInstrumentTrace exeName) :=
  ⟨⟨3, 5, by decide, rfl, rfl⟩, ⟨4, 5, by decide, rfl, rfl⟩,
   ⟨6, 7, by decide, rfl, rfl⟩, ⟨7, 8, by decide, rfl, rfl⟩⟩

/-- C9: every call of `terminate_process` performs exactly the kill of the
target pid followed by the session detach, the kill occurring strictly
before the detach. -/
theorem terminate_process_order (pid : Nat) :
    terminateProcessTrace pid =
      [TerminateEvent.killProcess pid, TerminateEvent.detachSession] ∧
    occursBefore (TerminateEvent.killProcess pid)
      TerminateEvent.detachSession (terminateProcessTrace pid) :=
  ⟨rfl, ⟨0, 1, by decide, rfl, rfl⟩⟩

/-- C10: for every message of kind error without a stack field, the
dispatcher's unconditional stack lookup raises a KeyError that escapes the
dispatcher after only the message itself was logged; the OEP callback is
not invoked. -/
theorem error_without_stack_escapes (p : Option Payload) :
    frida_callback ⟨some "error", none, p⟩ =
      ⟨[], [.message ⟨some "error", none, p⟩],
       some (.keyError "stack")⟩ := rfl

end Unlicense
